import Mathlib

/-!
Verification of the address-resolution-and-fallback layer of
`src/lib/base/tcpsocket.cpp` (icinga2): `TcpSocket::Bind` and
`TcpSocket::Connect`.

The C++ code is shallowly embedded as pure Lean functions.  The operating
system (getaddrinfo, socket, setsockopt, bind, connect) is modelled as an
oracle structure `OsApi`; per-candidate syscall outcomes are indexed by the
loop-iteration number together with the actual syscall arguments, which is
the most general deterministic account of the blocking, single-threaded
loop in the source.  Each call returns a `CallOut`: the observable result
(success with a descriptor, a resolution error, or the terminal socket
error) together with the ordered trace of externally visible events
(syscalls, descriptor closes, the `freeaddrinfo` release, critical log
entries), so that resource-usage claims can be stated over traces.

The C++ locals `error` and `func` are uninitialized ints/pointers; they are
modelled as `Option` values starting at `none`, so "reads uninitialized" is
observable as `none` reaching the terminal error.
-/

/-- `AF_UNSPEC` address-family constant. -/
def AF_UNSPEC : Int := 0

/-- `SOCK_STREAM` socket-type constant (`hints.ai_socktype = SOCK_STREAM`). -/
def SOCK_STREAM : Int := 1

/-- `IPPROTO_TCP` protocol constant (`hints.ai_protocol = IPPROTO_TCP`). -/
def IPPROTO_TCP : Int := 6

/-- `AI_PASSIVE` flag constant (`hints.ai_flags = AI_PASSIVE` in `Bind`). -/
def AI_PASSIVE : Int := 1

/-- `IPPROTO_IPV6` level constant for the `IPV6_V6ONLY` option. -/
def IPPROTO_IPV6 : Int := 41

/-- `IPV6_V6ONLY` option-name constant. -/
def IPV6_V6ONLY : Int := 26

/-- `SOL_SOCKET` level constant for the `SO_REUSEADDR` option. -/
def SOL_SOCKET : Int := 1

/-- `SO_REUSEADDR` option-name constant. -/
def SO_REUSEADDR : Int := 2

/-- One entry of the `addrinfo` linked list produced by `getaddrinfo`:
family, socket type, protocol, and the sockaddr payload (`ai_addr`, kept
opaque as a numeric identifier) with its length (`ai_addrlen`). -/
structure AddrInfo where
  ai_family : Int
  ai_socktype : Int
  ai_protocol : Int
  ai_addr : Nat
  ai_addrlen : Nat
deriving Repr, DecidableEq

/-- The arguments of a `getaddrinfo` call: the node (`none` models the C
`NULL` pointer, `some s` the C string `s`), the service string, and the
`hints` fields that `tcpsocket.cpp` fills in (`ai_family`, `ai_socktype`,
`ai_protocol`, `ai_flags`; everything else is zeroed by `memset`). -/
structure GaiQuery where
  node : Option String
  service : String
  ai_family : Int
  ai_socktype : Int
  ai_protocol : Int
  ai_flags : Int
deriving Repr, DecidableEq

deriving instance DecidableEq for Except

/-- Externally visible events of one `Bind`/`Connect` call, in program
order: each syscall with its arguments and outcome, `closesocket`,
`SetFD`, `freeaddrinfo`, and critical log messages. -/
inductive SockEvent where
  | socketCall (family socktype protocol : Int) (res : Except Int Nat)
  | setsockoptCall (fd : Nat) (level optname value : Int) (ok : Bool)
  | bindCall (fd : Nat) (addr addrlen : Nat) (res : Option Int)
  | connectCall (fd : Nat) (addr addrlen : Nat) (res : Option Int)
  | closeCall (fd : Nat)
  | setFDCall (fd : Nat)
  | freeaddrinfoCall
  | logCritical
deriving Repr, DecidableEq

/-- The oracle for the operating system's behaviour during one call.
`gaiResult` maps a query to the pair (return code, result list): the code
checks `rc != 0` and iterates the list only when `rc = 0`.  The per-syscall
oracles take the loop-iteration index plus the syscall's actual arguments:
`socketResult i family socktype protocol` is `fd` on success or the errno
(`WSAGetLastError` on Windows) on failure; `bindResult`/`connectResult`
take `(i, fd, ai_addr, ai_addrlen)` and return `none` on success or
`some errno` on failure; `sockoptResult` gives the (ignored) success flag
of a `setsockopt` call. -/
structure OsApi where
  gaiResult : GaiQuery → Int × List AddrInfo
  socketResult : Nat → Int → Int → Int → Except Int Nat
  sockoptResult : Nat → Nat → Int → Int → Bool
  bindResult : Nat → Nat → Nat → Nat → Option Int
  connectResult : Nat → Nat → Nat → Nat → Option Int

/-- Outcome of one candidate's attempt: either the step failed and recorded
`func`/`error` (the strings "socket", "bind", "connect" with the platform
error code), or it fully succeeded yielding the open descriptor. -/
inductive StepOut where
  | fail (func : String) (error : Int)
  | success (fd : Nat)
deriving Repr, DecidableEq

/-- Whether a step outcome is a failure. -/
def StepOut.isFail : StepOut → Bool
  | .fail _ _ => true
  | .success _ => false

/-- The `(func, error)` pair recorded by a failing step (junk on success,
which is never consulted under the lemmas' hypotheses). -/
def StepOut.failData : StepOut → String × Int
  | .fail f e => (f, e)
  | .success _ => ("", 0)

/-- One iteration of the candidate loop of `TcpSocket::Bind`
(tcpsocket.cpp lines 75-115): create the socket; on failure record
`("socket", errno)` and continue; otherwise clear `IPV6_V6ONLY`, set
`SO_REUSEADDR` when not on Windows (both best-effort, results discarded),
then attempt `bind`; on failure record `("bind", errno)`, close the
socket and continue; on success `SetFD(fd)` and stop. -/
def bindStep (os : OsApi) (windows : Bool) (i : Nat) (info : AddrInfo) :
    StepOut × List SockEvent :=
  match os.socketResult i info.ai_family info.ai_socktype info.ai_protocol with
  | .error e =>
      (.fail "socket" e,
       [.socketCall info.ai_family info.ai_socktype info.ai_protocol (.error e)])
  | .ok fd =>
      let evs : List SockEvent :=
        SockEvent.socketCall info.ai_family info.ai_socktype info.ai_protocol (.ok fd) ::
        SockEvent.setsockoptCall fd IPPROTO_IPV6 IPV6_V6ONLY 0
          (os.sockoptResult i fd IPPROTO_IPV6 IPV6_V6ONLY) ::
        (if windows then [] else
          [SockEvent.setsockoptCall fd SOL_SOCKET SO_REUSEADDR 1
            (os.sockoptResult i fd SOL_SOCKET SO_REUSEADDR)])
      match os.bindResult i fd info.ai_addr info.ai_addrlen with
      | some e =>
          (.fail "bind" e,
           evs ++ [.bindCall fd info.ai_addr info.ai_addrlen (some e), .closeCall fd])
      | none =>
          (.success fd,
           evs ++ [.bindCall fd info.ai_addr info.ai_addrlen none, .setFDCall fd])

/-- One iteration of the candidate loop of `TcpSocket::Connect`
(tcpsocket.cpp lines 166-198): create the socket; on failure record
`("socket", errno)` and continue; otherwise attempt `connect`; on failure
record `("connect", errno)`, close the socket and continue; on success
`SetFD(fd)` and stop.  No socket options are applied. -/
def connectStep (os : OsApi) (i : Nat) (info : AddrInfo) :
    StepOut × List SockEvent :=
  match os.socketResult i info.ai_family info.ai_socktype info.ai_protocol with
  | .error e =>
      (.fail "socket" e,
       [.socketCall info.ai_family info.ai_socktype info.ai_protocol (.error e)])
  | .ok fd =>
      match os.connectResult i fd info.ai_addr info.ai_addrlen with
      | some e =>
          (.fail "connect" e,
           [.socketCall info.ai_family info.ai_socktype info.ai_protocol (.ok fd),
            .connectCall fd info.ai_addr info.ai_addrlen (some e), .closeCall fd])
      | none =>
          (.success fd,
           [.socketCall info.ai_family info.ai_socktype info.ai_protocol (.ok fd),
            .connectCall fd info.ai_addr info.ai_addrlen none, .setFDCall fd])

/-- State after the candidate loop: the socket object's descriptor (set by
`SetFD`, `none` models `INVALID_SOCKET`, the value it holds on entry), the
locals `func` and `error` (`none` = still uninitialized), and the event
trace of the loop. -/
structure LoopOut where
  fd : Option Nat
  func : Option String
  err : Option Int
  events : List SockEvent
deriving Repr, DecidableEq

/-- The candidate loop shared by `Bind` and `Connect`
(`for (addrinfo *info = result; info != NULL; info = info->ai_next)`):
run `step` on each candidate in order; a failing step overwrites
`func`/`error` and the loop advances; the first successful step installs
the descriptor and breaks. -/
def tryLoop (step : Nat → AddrInfo → StepOut × List SockEvent) :
    List AddrInfo → Nat → Option String → Option Int → LoopOut
  | [], _, func, err => { fd := none, func := func, err := err, events := [] }
  | info :: rest, i, func, err =>
      match step i info with
      | (.fail f e, evs) =>
          let r := tryLoop step rest (i + 1) (some f) (some e)
          { r with events := evs ++ r.events }
      | (.success fd, evs) =>
          { fd := some fd, func := func, err := err, events := evs }

/-- Observable result of a `Bind`/`Connect` call: success with the
installed descriptor; the `getaddrinfo`-failure exception
(`socket_error` carrying `errinfo_getaddrinfo_error`, the spec's
`ResolutionError`); or the terminal exhaustion exception (`socket_error`
carrying `errinfo_api_function(func)` and the platform error, the spec's
`SocketError`).  The `Option` payloads of `socketError` are the possibly
uninitialized locals. -/
inductive CallResult where
  | ok (fd : Nat)
  | resolutionError (rc : Int)
  | socketError (func : Option String) (error : Option Int)
deriving Repr, DecidableEq

/-- A call's observable outcome: result plus ordered event trace. -/
structure CallOut where
  result : CallResult
  events : List SockEvent
deriving Repr, DecidableEq

/-- The `getaddrinfo` query built by `TcpSocket::Bind` (lines 55-62):
`AI_PASSIVE` hints, stream/TCP, caller-chosen family, and the node passed
as `NULL` when `node.IsEmpty()` and as the node text otherwise. -/
def TcpSocket.bindQuery (node service : String) (family : Int) : GaiQuery :=
  { node := if node = "" then none else some node
    service := service
    ai_family := family
    ai_socktype := SOCK_STREAM
    ai_protocol := IPPROTO_TCP
    ai_flags := AI_PASSIVE }

/-- The `getaddrinfo` query built by `TcpSocket::Connect` (lines 148-153):
unspecified family, stream/TCP, no flags, and the node text passed through
verbatim (`node.CStr()`, never `NULL`). -/
def TcpSocket.connectQuery (node service : String) : GaiQuery :=
  { node := some node
    service := service
    ai_family := AF_UNSPEC
    ai_socktype := SOCK_STREAM
    ai_protocol := IPPROTO_TCP
    ai_flags := 0 }

/-- `TcpSocket::Bind` after the `getaddrinfo` call, taking the pair
(return code, result list): on `rc != 0` log critically and throw the
resolution error (lines 64-71); otherwise run the candidate loop,
release the list with `freeaddrinfo` (line 117), and if `GetFD()` is
still `INVALID_SOCKET` log critically and throw the terminal
`socket_error` from the recorded `func`/`error` (lines 119-132). -/
def TcpSocket.bindFromGai (os : OsApi) (windows : Bool)
    (gai : Int × List AddrInfo) : CallOut :=
  if gai.1 ≠ 0 then
    { result := .resolutionError gai.1, events := [.logCritical] }
  else
    let r := tryLoop (bindStep os windows) gai.2 0 none none
    match r.fd with
    | some fd => { result := .ok fd, events := r.events ++ [.freeaddrinfoCall] }
    | none =>
        { result := .socketError r.func r.err
          events := r.events ++ [.freeaddrinfoCall, .logCritical] }

/-- `TcpSocket::Bind(node, service, family)` (lines 48-133). -/
def TcpSocket.Bind (os : OsApi) (windows : Bool)
    (node service : String) (family : Int) : CallOut :=
  TcpSocket.bindFromGai os windows
    (os.gaiResult (TcpSocket.bindQuery node service family))

/-- `TcpSocket::Bind(service, family)` (lines 36-39): delegates with an
empty node. -/
def TcpSocket.BindService (os : OsApi) (windows : Bool)
    (service : String) (family : Int) : CallOut :=
  TcpSocket.Bind os windows "" service family

/-- `TcpSocket::Connect` after the `getaddrinfo` call, mirroring
`bindFromGai` (lines 155-162 and 200-215). -/
def TcpSocket.connectFromGai (os : OsApi)
    (gai : Int × List AddrInfo) : CallOut :=
  if gai.1 ≠ 0 then
    { result := .resolutionError gai.1, events := [.logCritical] }
  else
    let r := tryLoop (connectStep os) gai.2 0 none none
    match r.fd with
    | some fd => { result := .ok fd, events := r.events ++ [.freeaddrinfoCall] }
    | none =>
        { result := .socketError r.func r.err
          events := r.events ++ [.freeaddrinfoCall, .logCritical] }

/-- `TcpSocket::Connect(node, service)` (lines 141-216). -/
def TcpSocket.Connect (os : OsApi) (node service : String) : CallOut :=
  TcpSocket.connectFromGai os
    (os.gaiResult (TcpSocket.connectQuery node service))

/-- Selects `socket()` call events. -/
def isSocketCallEv : SockEvent → Bool
  | .socketCall _ _ _ _ => true
  | _ => false

/-- Selects `closesocket` events. -/
def isCloseEv : SockEvent → Bool
  | .closeCall _ => true
  | _ => false

/-- Selects `freeaddrinfo` events. -/
def isFreeEv : SockEvent → Bool
  | .freeaddrinfoCall => true
  | _ => false

/-- Selects `setsockopt` events. -/
def isSetsockoptEv : SockEvent → Bool
  | .setsockoptCall _ _ _ _ _ => true
  | _ => false

/-- Replays an event trace over a list of currently open descriptors:
a successful `socket()` opens one, `closesocket` closes one, everything
else leaves the set unchanged.  `openAfter [] tr` is the list of
descriptors still open after the trace `tr`. -/
def openAfter : List Nat → List SockEvent → List Nat
  | acc, [] => acc
  | acc, SockEvent.socketCall _ _ _ (.ok fd) :: rest => openAfter (acc ++ [fd]) rest
  | acc, SockEvent.closeCall fd :: rest => openAfter (acc.erase fd) rest
  | acc, _ :: rest => openAfter acc rest

/-- The descriptors a call is allowed to leave open: exactly the
successful result, nothing on any failure. -/
def survivors : CallResult → List Nat
  | .ok fd => [fd]
  | _ => []

/-- Sum, over a candidate list starting at loop index `i`, of the number
of `p`-events each candidate's step emits. -/
def sumEvCount (step : Nat → AddrInfo → StepOut × List SockEvent)
    (p : SockEvent → Bool) : Nat → List AddrInfo → Nat
  | _, [] => 0
  | i, a :: rest => ((step i a).2).countP p + sumEvCount step p (i + 1) rest

/-- Number of candidates in the list (starting at loop index `i`) whose
`socket()` creation succeeds under the oracle. -/
def createOkCount (os : OsApi) : Nat → List AddrInfo → Nat
  | _, [] => 0
  | i, a :: rest =>
      (match os.socketResult i a.ai_family a.ai_socktype a.ai_protocol with
       | .ok _ => 1
       | .error _ => 0) + createOkCount os (i + 1) rest

/-- The `getaddrinfo` contract: a zero return code comes with at least one
`addrinfo` entry (POSIX guarantees a list of one or more on success). -/
abbrev gaiWf (os : OsApi) (q : GaiQuery) : Prop :=
  (os.gaiResult q).1 = 0 → (os.gaiResult q).2 ≠ []

/-- Resolution yields zero candidates: either `getaddrinfo` reports an
error, or it succeeds with an empty list. -/
abbrev yieldsZeroCandidates (os : OsApi) (q : GaiQuery) : Prop :=
  (os.gaiResult q).1 ≠ 0 ∨ (os.gaiResult q).2 = []

/-- A concrete IPv4 stream candidate. -/
def infoV4 : AddrInfo :=
  { ai_family := 2, ai_socktype := 1, ai_protocol := 6, ai_addr := 100, ai_addrlen := 16 }

/-- A concrete IPv6 stream candidate. -/
def infoV6 : AddrInfo :=
  { ai_family := 10, ai_socktype := 1, ai_protocol := 6, ai_addr := 200, ai_addrlen := 28 }

/-- Oracle on which `getaddrinfo` fails with status `-2` (`EAI_NONAME`). -/
def osResFail : OsApi :=
  { gaiResult := fun _ => (-2, [])
    socketResult := fun _ _ _ _ => .error 1
    sockoptResult := fun _ _ _ _ => true
    bindResult := fun _ _ _ _ => some 1
    connectResult := fun _ _ _ _ => some 1 }

/-- Oracle on which `getaddrinfo` succeeds but returns an empty list
(outside the POSIX contract). -/
def osEmptyOk : OsApi :=
  { gaiResult := fun _ => (0, [])
    socketResult := fun _ _ _ _ => .error 1
    sockoptResult := fun _ _ _ _ => true
    bindResult := fun _ _ _ _ => some 1
    connectResult := fun _ _ _ _ => some 1 }

/-- Oracle with two candidates on which every step fails: candidate 0
fails at `socket()` with errno 24, candidate 1 creates descriptor 5 but
fails `bind` with errno 98 and `connect` with errno 111. -/
def osAllFail : OsApi :=
  { gaiResult := fun _ => (0, [infoV4, infoV6])
    socketResult := fun i _ _ _ => if i = 0 then .error 24 else .ok 5
    sockoptResult := fun _ _ _ _ => true
    bindResult := fun _ _ _ _ => some 98
    connectResult := fun _ _ _ _ => some 111 }

/-- Oracle with two candidates where candidate 0 fails at `socket()`
creation (errno 24, so no descriptor ever exists for it) and candidate 1
succeeds with descriptor 7. -/
def osLateOk : OsApi :=
  { gaiResult := fun _ => (0, [infoV4, infoV6])
    socketResult := fun i _ _ _ => if i = 0 then .error 24 else .ok 7
    sockoptResult := fun _ _ _ _ => true
    bindResult := fun _ _ _ _ => none
    connectResult := fun _ _ _ _ => none }

/-- Oracle with two candidates where socket creation always succeeds
(descriptor 5) and both `bind` and `connect` always fail. -/
def osStepFail : OsApi :=
  { gaiResult := fun _ => (0, [infoV4, infoV6])
    socketResult := fun _ _ _ _ => .ok 5
    sockoptResult := fun _ _ _ _ => false
    bindResult := fun _ _ _ _ => some 98
    connectResult := fun _ _ _ _ => some 111 }

/-- Oracle with two candidates where candidate 0 creates descriptor 4 but
fails `bind`/`connect` (errno 98/111), and candidate 1 succeeds with
descriptor 9. -/
def osRetryOk : OsApi :=
  { gaiResult := fun _ => (0, [infoV4, infoV6])
    socketResult := fun i _ _ _ => if i = 0 then .ok 4 else .ok 9
    sockoptResult := fun _ _ _ _ => true
    bindResult := fun i _ _ _ => if i = 0 then some 98 else none
    connectResult := fun i _ _ _ => if i = 0 then some 111 else none }

/-- Once `func`/`error` hold values, the loop never un-writes them. -/
theorem tryLoop_keeps_some (step : Nat → AddrInfo → StepOut × List SockEvent) :
    ∀ (l : List AddrInfo) (i : Nat) (f0 : Option String) (e0 : Option Int),
      f0.isSome = true → e0.isSome = true →
      ((tryLoop step l i f0 e0).func).isSome = true ∧
      ((tryLoop step l i f0 e0).err).isSome = true
  | [], i, f0, e0, hf, he => by simp [tryLoop, hf, he]
  | info :: rest, i, f0, e0, hf, he => by
      rcases hstep : step i info with ⟨o, evs⟩
      cases o with
      | fail f e =>
          have ih := tryLoop_keeps_some step rest (i + 1) (some f) (some e) rfl rfl
          simpa [tryLoop, hstep] using ih
      | success fd => simp [tryLoop, hstep, hf, he]

/-- If the loop ran over a non-empty candidate list and installed no
descriptor, then `func` and `error` have been written. -/
theorem tryLoop_none_written (step : Nat → AddrInfo → StepOut × List SockEvent)
    (info : AddrInfo) (rest : List AddrInfo) (i : Nat)
    (f0 : Option String) (e0 : Option Int)
    (h : (tryLoop step (info :: rest) i f0 e0).fd = none) :
    ((tryLoop step (info :: rest) i f0 e0).func).isSome = true ∧
    ((tryLoop step (info :: rest) i f0 e0).err).isSome = true := by
  rcases hstep : step i info with ⟨o, evs⟩
  cases o with
  | fail f e =>
      have ih := tryLoop_keeps_some step rest (i + 1) (some f) (some e) rfl rfl
      simpa [tryLoop, hstep] using ih
  | success fd => simp [tryLoop, hstep] at h

/-- Events the per-candidate step never emits do not appear in the loop
trace. -/
theorem tryLoop_countP_zero (step : Nat → AddrInfo → StepOut × List SockEvent)
    (p : SockEvent → Bool) (hp : ∀ j a, ((step j a).2).countP p = 0) :
    ∀ (l : List AddrInfo) (i : Nat) (f0 : Option String) (e0 : Option Int),
      ((tryLoop step l i f0 e0).events).countP p = 0
  | [], i, f0, e0 => by simp [tryLoop]
  | info :: rest, i, f0, e0 => by
      rcases hstep : step i info with ⟨o, evs⟩
      have hevs : evs.countP p = 0 := by
        have h := hp i info
        rw [hstep] at h
        exact h
      cases o with
      | fail f e =>
          have ih := tryLoop_countP_zero step p hp rest (i + 1) (some f) (some e)
          simp [tryLoop, hstep, List.countP_append, hevs, ih]
      | success fd => simp [tryLoop, hstep, hevs]

/-- When each step emits exactly one `p`-event, the summed count over a
candidate list is its length. -/
theorem sumEvCount_one (step : Nat → AddrInfo → StepOut × List SockEvent)
    (p : SockEvent → Bool) (hp : ∀ j a, ((step j a).2).countP p = 1) :
    ∀ (l : List AddrInfo) (i : Nat), sumEvCount step p i l = l.length
  | [], _ => rfl
  | a :: rest, i => by
      simp [sumEvCount, hp i a, sumEvCount_one step p hp rest (i + 1), Nat.add_comm]

/-- Replaying a concatenated trace replays the pieces in order. -/
theorem openAfter_append (l1 : List SockEvent) :
    ∀ (acc : List Nat) (l2 : List SockEvent),
      openAfter acc (l1 ++ l2) = openAfter (openAfter acc l1) l2 := by
  induction l1 with
  | nil => intro acc l2; rfl
  | cons e rest ih =>
      intro acc l2
      cases e with
      | socketCall a b c res => cases res <;> simp [openAfter, ih]
      | _ => simp [openAfter, ih]

/-- If every failing step leaves no descriptor open and every successful
step leaves exactly its own, the loop trace leaves open exactly the
installed descriptor (or nothing). -/
theorem tryLoop_openAfter (step : Nat → AddrInfo → StepOut × List SockEvent)
    (hstep : ∀ j a,
      ((((step j a).1).isFail = true) → openAfter [] (step j a).2 = []) ∧
      (∀ fd, (step j a).1 = .success fd → openAfter [] (step j a).2 = [fd])) :
    ∀ (l : List AddrInfo) (i : Nat) (f0 : Option String) (e0 : Option Int),
      openAfter [] ((tryLoop step l i f0 e0).events) =
        (match (tryLoop step l i f0 e0).fd with
         | some fd => [fd]
         | none => [])
  | [], i, f0, e0 => rfl
  | info :: rest, i, f0, e0 => by
      rcases hs : step i info with ⟨o, evs⟩
      cases o with
      | fail f e =>
          have hevs : openAfter [] evs = [] := by
            have h := (hstep i info).1
            rw [hs] at h
            exact h rfl
          have ih := tryLoop_openAfter step hstep rest (i + 1) (some f) (some e)
          simp [tryLoop, hs, openAfter_append, hevs, ih]
      | success fd =>
          have hevs : openAfter [] evs = [fd] := by
            have h := (hstep i info).2 fd
            rw [hs] at h
            exact h rfl
          simp [tryLoop, hs, hevs]

/-- Unfolding: the loop on an empty list. -/
theorem tryLoop_nil (step : Nat → AddrInfo → StepOut × List SockEvent)
    (i : Nat) (f0 : Option String) (e0 : Option Int) :
    tryLoop step [] i f0 e0 = { fd := none, func := f0, err := e0, events := [] } := rfl

/-- Unfolding: a failing head step recurses with the recorded pair and
prepends its events. -/
theorem tryLoop_cons_fail (step : Nat → AddrInfo → StepOut × List SockEvent)
    (info : AddrInfo) (rest : List AddrInfo) (i : Nat)
    (f0 : Option String) (e0 : Option Int) (f : String) (e : Int)
    (evs : List SockEvent) (h : step i info = (.fail f e, evs)) :
    tryLoop step (info :: rest) i f0 e0 =
      { fd := (tryLoop step rest (i + 1) (some f) (some e)).fd
        func := (tryLoop step rest (i + 1) (some f) (some e)).func
        err := (tryLoop step rest (i + 1) (some f) (some e)).err
        events := evs ++ (tryLoop step rest (i + 1) (some f) (some e)).events } := by
  simp only [tryLoop, h]

/-- Unfolding: a successful head step stops the loop at once. -/
theorem tryLoop_cons_succ (step : Nat → AddrInfo → StepOut × List SockEvent)
    (info : AddrInfo) (rest : List AddrInfo) (i : Nat)
    (f0 : Option String) (e0 : Option Int) (fd : Nat)
    (evs : List SockEvent) (h : step i info = (.success fd, evs)) :
    tryLoop step (info :: rest) i f0 e0 =
      { fd := some fd, func := f0, err := e0, events := evs } := by
  simp only [tryLoop, h]

/-- First-success semantics of the candidate loop: if the steps before
position `k` all fail and the step at `k` succeeds with `fd`, then the
loop installs `fd` and its trace consists of exactly the events of steps
`0..k` (so no later candidate is attempted). -/
theorem tryLoop_success (step : Nat → AddrInfo → StepOut × List SockEvent) :
    ∀ (l : List AddrInfo) (i : Nat) (f0 : Option String) (e0 : Option Int)
      (k : Nat) (hk : k < l.length)
      (hfail : ∀ j (hj : j < k),
        ((step (i + j) (l.get ⟨j, Nat.lt_trans hj hk⟩)).1).isFail = true)
      (fd : Nat) (hsucc : (step (i + k) (l.get ⟨k, hk⟩)).1 = .success fd),
      (tryLoop step l i f0 e0).fd = some fd ∧
      ∀ p, ((tryLoop step l i f0 e0).events).countP p =
        sumEvCount step p i (l.take k) + ((step (i + k) (l.get ⟨k, hk⟩)).2).countP p
  | [], _, _, _, k, hk, _, _, _ => absurd hk (by simp)
  | info :: rest, i, f0, e0, 0, hk, hfail, fd, hsucc => by
      have h : (step i info).1 = StepOut.success fd := hsucc
      rcases hstep : step i info with ⟨o, evs⟩
      rw [hstep] at h
      subst h
      rw [tryLoop_cons_succ step info rest i f0 e0 fd evs hstep]
      refine ⟨rfl, fun p => ?_⟩
      have h2 : (step (i + 0) ((info :: rest).get ⟨0, hk⟩)).2 = evs := by
        have h2' : (step i info).2 = evs := by rw [hstep]
        exact h2'
      rw [h2]
      simp [sumEvCount]
  | info :: rest, i, f0, e0, k + 1, hk, hfail, fd, hsucc => by
      have h0 : ((step i info).1).isFail = true := hfail 0 (Nat.succ_pos k)
      rcases hstep : step i info with ⟨o, evs⟩
      rw [hstep] at h0
      cases o with
      | success fd' => simp [StepOut.isFail] at h0
      | fail f e =>
          have hk' : k < rest.length := Nat.lt_of_succ_lt_succ hk
          have hfail' : ∀ j (hj : j < k),
              ((step ((i + 1) + j) (rest.get ⟨j, Nat.lt_trans hj hk'⟩)).1).isFail = true := by
            intro j hj
            have hidx : (i + 1) + j = i + (j + 1) := by omega
            rw [hidx]
            exact hfail (j + 1) (Nat.succ_lt_succ hj)
          have hsucc' : (step ((i + 1) + k) (rest.get ⟨k, hk'⟩)).1 = .success fd := by
            have hidx : (i + 1) + k = i + (k + 1) := by omega
            rw [hidx]
            exact hsucc
          have ih := tryLoop_success step rest (i + 1) (some f) (some e) k hk' hfail' fd hsucc'
          rw [tryLoop_cons_fail step info rest i f0 e0 f e evs hstep]
          refine ⟨ih.1, fun p => ?_⟩
          have ihp := ih.2 p
          have htail : (step (i + (k + 1)) ((info :: rest).get ⟨k + 1, hk⟩)).2 =
              (step ((i + 1) + k) (rest.get ⟨k, hk'⟩)).2 := by
            have hidx : i + (k + 1) = (i + 1) + k := by omega
            rw [hidx]
            rfl
          rw [List.take_succ_cons]
          simp only [List.countP_append, sumEvCount, htail]
          have hevs : (step i info).2 = evs := by rw [hstep]
          rw [hevs, ihp]
          exact (Nat.add_assoc _ _ _).symm

/-- Exhaustion semantics of the candidate loop: if every step fails, no
descriptor is installed and the trace consists of all steps' events. -/
theorem tryLoop_exhaust (step : Nat → AddrInfo → StepOut × List SockEvent) :
    ∀ (l : List AddrInfo) (i : Nat) (f0 : Option String) (e0 : Option Int)
      (hfail : ∀ j (hj : j < l.length), ((step (i + j) (l.get ⟨j, hj⟩)).1).isFail = true),
      (tryLoop step l i f0 e0).fd = none ∧
      ∀ p, ((tryLoop step l i f0 e0).events).countP p = sumEvCount step p i l
  | [], i, f0, e0, _ => by simp [tryLoop_nil, sumEvCount]
  | info :: rest, i, f0, e0, hfail => by
      have h0 : ((step i info).1).isFail = true := hfail 0 (Nat.succ_pos _)
      rcases hstep : step i info with ⟨o, evs⟩
      rw [hstep] at h0
      cases o with
      | success fd' => simp [StepOut.isFail] at h0
      | fail f e =>
          have hfail' : ∀ j (hj : j < rest.length),
              ((step ((i + 1) + j) (rest.get ⟨j, hj⟩)).1).isFail = true := by
            intro j hj
            have hidx : (i + 1) + j = i + (j + 1) := by omega
            rw [hidx]
            exact hfail (j + 1) (Nat.succ_lt_succ hj)
          have ih := tryLoop_exhaust step rest (i + 1) (some f) (some e) hfail'
          rw [tryLoop_cons_fail step info rest i f0 e0 f e evs hstep]
          refine ⟨ih.1, fun p => ?_⟩
          have ihp := ih.2 p
          simp only [List.countP_append, sumEvCount, ihp]
          have hevs : (step i info).2 = evs := by rw [hstep]
          rw [hevs]

/-- Exhaustion writes `func`/`error` last at the final candidate: after a
fully failing pass over a non-empty list, the recorded pair is exactly the
failure data of the last step. -/
theorem tryLoop_exhaust_last (step : Nat → AddrInfo → StepOut × List SockEvent) :
    ∀ (l : List AddrInfo) (i : Nat) (f0 : Option String) (e0 : Option Int)
      (hne : l ≠ [])
      (hfail : ∀ j (hj : j < l.length), ((step (i + j) (l.get ⟨j, hj⟩)).1).isFail = true),
      (tryLoop step l i f0 e0).func =
        some ((((step (i + (l.length - 1)) (l.getLast hne)).1).failData).1) ∧
      (tryLoop step l i f0 e0).err =
        some ((((step (i + (l.length - 1)) (l.getLast hne)).1).failData).2)
  | [], _, _, _, hne, _ => absurd rfl hne
  | [info], i, f0, e0, hne, hfail => by
      have h0 : ((step i info).1).isFail = true := hfail 0 (Nat.succ_pos _)
      rcases hstep : step i info with ⟨o, evs⟩
      rw [hstep] at h0
      cases o with
      | success fd' => simp [StepOut.isFail] at h0
      | fail f e =>
          rw [tryLoop_cons_fail step info [] i f0 e0 f e evs hstep]
          have hlast : (step (i + ([info].length - 1)) ([info].getLast hne)).1 =
              StepOut.fail f e := by
            have h1 : (step i info).1 = StepOut.fail f e := by rw [hstep]
            exact h1
          rw [hlast]
          exact ⟨rfl, rfl⟩
  | info :: info2 :: rest, i, f0, e0, hne, hfail => by
      have h0 : ((step i info).1).isFail = true := hfail 0 (Nat.succ_pos _)
      rcases hstep : step i info with ⟨o, evs⟩
      rw [hstep] at h0
      cases o with
      | success fd' => simp [StepOut.isFail] at h0
      | fail f e =>
          have hfail' : ∀ j (hj : j < (info2 :: rest).length),
              ((step ((i + 1) + j) ((info2 :: rest).get ⟨j, hj⟩)).1).isFail = true := by
            intro j hj
            have hidx : (i + 1) + j = i + (j + 1) := by omega
            rw [hidx]
            exact hfail (j + 1) (Nat.succ_lt_succ hj)
          have ih := tryLoop_exhaust_last step (info2 :: rest) (i + 1) (some f) (some e)
            (by simp) hfail'
          have hidx : i + ((info :: info2 :: rest).length - 1) =
              (i + 1) + ((info2 :: rest).length - 1) := by
            simp only [List.length_cons]
            omega
          have hlast : (info :: info2 :: rest).getLast hne =
              (info2 :: rest).getLast (by simp) := List.getLast_cons (by simp)
          rw [tryLoop_cons_fail step info (info2 :: rest) i f0 e0 f e evs hstep, hidx, hlast]
          exact ih

/-- A failing `Bind` candidate leaves no descriptor open; a successful one
leaves exactly its own. -/
theorem bindStep_openAfter (os : OsApi) (w : Bool) (i : Nat) (info : AddrInfo) :
    ((((bindStep os w i info).1).isFail = true) →
      openAfter [] (bindStep os w i info).2 = []) ∧
    (∀ fd, (bindStep os w i info).1 = .success fd →
      openAfter [] (bindStep os w i info).2 = [fd]) := by
  rcases h1 : os.socketResult i info.ai_family info.ai_socktype info.ai_protocol with e | fd0
  · refine ⟨fun _ => ?_, fun fd h => ?_⟩
    · simp [bindStep, h1, openAfter]
    · simp [bindStep, h1] at h
  · rcases h2 : os.bindResult i fd0 info.ai_addr info.ai_addrlen with _ | e
    · refine ⟨fun h => ?_, fun fd h => ?_⟩
      · simp [bindStep, h1, h2, StepOut.isFail] at h
      · have hfd : fd0 = fd := by simpa [bindStep, h1, h2] using h
        subst hfd
        cases w <;> simp [bindStep, h1, h2, openAfter]
    · refine ⟨fun _ => ?_, fun fd h => ?_⟩
      · cases w <;> simp [bindStep, h1, h2, openAfter]
      · simp [bindStep, h1, h2] at h

/-- A failing `Connect` candidate leaves no descriptor open; a successful
one leaves exactly its own. -/
theorem connectStep_openAfter (os : OsApi) (i : Nat) (info : AddrInfo) :
    ((((connectStep os i info).1).isFail = true) →
      openAfter [] (connectStep os i info).2 = []) ∧
    (∀ fd, (connectStep os i info).1 = .success fd →
      openAfter [] (connectStep os i info).2 = [fd]) := by
  rcases h1 : os.socketResult i info.ai_family info.ai_socktype info.ai_protocol with e | fd0
  · refine ⟨fun _ => ?_, fun fd h => ?_⟩
    · simp [connectStep, h1, openAfter]
    · simp [connectStep, h1] at h
  · rcases h2 : os.connectResult i fd0 info.ai_addr info.ai_addrlen with _ | e
    · refine ⟨fun h => ?_, fun fd h => ?_⟩
      · simp [connectStep, h1, h2, StepOut.isFail] at h
      · have hfd : fd0 = fd := by simpa [connectStep, h1, h2] using h
        subst hfd
        simp [connectStep, h1, h2, openAfter]
    · refine ⟨fun _ => ?_, fun fd h => ?_⟩
      · simp [connectStep, h1, h2, openAfter]
      · simp [connectStep, h1, h2] at h

/-- Every `Bind` candidate performs exactly one `socket()` call. -/
theorem bindStep_count_socket (os : OsApi) (w : Bool) (i : Nat) (info : AddrInfo) :
    ((bindStep os w i info).2).countP isSocketCallEv = 1 := by
  rcases h1 : os.socketResult i info.ai_family info.ai_socktype info.ai_protocol with e | fd0
  · simp [bindStep, h1, isSocketCallEv]
  · rcases h2 : os.bindResult i fd0 info.ai_addr info.ai_addrlen with _ | e <;>
      cases w <;> simp [bindStep, h1, h2, isSocketCallEv]

/-- Every `Connect` candidate performs exactly one `socket()` call. -/
theorem connectStep_count_socket (os : OsApi) (i : Nat) (info : AddrInfo) :
    ((connectStep os i info).2).countP isSocketCallEv = 1 := by
  rcases h1 : os.socketResult i info.ai_family info.ai_socktype info.ai_protocol with e | fd0
  · simp [connectStep, h1, isSocketCallEv]
  · rcases h2 : os.connectResult i fd0 info.ai_addr info.ai_addrlen with _ | e <;>
      simp [connectStep, h1, h2, isSocketCallEv]

/-- No `Bind` candidate releases the resolver list. -/
theorem bindStep_count_free (os : OsApi) (w : Bool) (i : Nat) (info : AddrInfo) :
    ((bindStep os w i info).2).countP isFreeEv = 0 := by
  rcases h1 : os.socketResult i info.ai_family info.ai_socktype info.ai_protocol with e | fd0
  · simp [bindStep, h1, isFreeEv]
  · rcases h2 : os.bindResult i fd0 info.ai_addr info.ai_addrlen with _ | e <;>
      cases w <;> simp [bindStep, h1, h2, isFreeEv]

/-- No `Connect` candidate releases the resolver list. -/
theorem connectStep_count_free (os : OsApi) (i : Nat) (info : AddrInfo) :
    ((connectStep os i info).2).countP isFreeEv = 0 := by
  rcases h1 : os.socketResult i info.ai_family info.ai_socktype info.ai_protocol with e | fd0
  · simp [connectStep, h1, isFreeEv]
  · rcases h2 : os.connectResult i fd0 info.ai_addr info.ai_addrlen with _ | e <;>
      simp [connectStep, h1, h2, isFreeEv]

/-- `Connect` candidates never call `setsockopt`. -/
theorem connectStep_count_sockopt (os : OsApi) (i : Nat) (info : AddrInfo) :
    ((connectStep os i info).2).countP isSetsockoptEv = 0 := by
  rcases h1 : os.socketResult i info.ai_family info.ai_socktype info.ai_protocol with e | fd0
  · simp [connectStep, h1, isSetsockoptEv]
  · rcases h2 : os.connectResult i fd0 info.ai_addr info.ai_addrlen with _ | e <;>
      simp [connectStep, h1, h2, isSetsockoptEv]

/-- Over a fully failing stretch of `Bind` candidates, the number of
`closesocket` calls equals the number of successful socket creations. -/
theorem sumClose_bind (os : OsApi) (w : Bool) :
    ∀ (l : List AddrInfo) (k : Nat) (i : Nat) (hk : k ≤ l.length)
      (hfail : ∀ j (hj : j < k),
        ((bindStep os w (i + j) (l.get ⟨j, Nat.lt_of_lt_of_le hj hk⟩)).1).isFail = true),
      sumEvCount (bindStep os w) isCloseEv i (l.take k) = createOkCount os i (l.take k)
  | _, 0, i, _, _ => by simp [sumEvCount, createOkCount]
  | [], k + 1, i, hk, _ => absurd hk (by simp)
  | a :: rest, k + 1, i, hk, hfail => by
      have h0 : ((bindStep os w i a).1).isFail = true := hfail 0 (Nat.succ_pos _)
      have hrec := sumClose_bind os w rest k (i + 1) (Nat.le_of_succ_le_succ hk)
        (fun j hj => by
          have hidx : (i + 1) + j = i + (j + 1) := by omega
          rw [hidx]
          exact hfail (j + 1) (Nat.succ_lt_succ hj))
      rw [List.take_succ_cons]
      simp only [sumEvCount, createOkCount]
      rw [hrec]
      congr 1
      rcases h1 : os.socketResult i a.ai_family a.ai_socktype a.ai_protocol with e | fd0
      · simp [bindStep, h1, isCloseEv]
      · rcases h2 : os.bindResult i fd0 a.ai_addr a.ai_addrlen with _ | e
        · simp [bindStep, h1, h2, StepOut.isFail] at h0
        · cases w <;> simp [bindStep, h1, h2, isCloseEv]

/-- Over a fully failing stretch of `Connect` candidates, the number of
`closesocket` calls equals the number of successful socket creations. -/
theorem sumClose_connect (os : OsApi) :
    ∀ (l : List AddrInfo) (k : Nat) (i : Nat) (hk : k ≤ l.length)
      (hfail : ∀ j (hj : j < k),
        ((connectStep os (i + j) (l.get ⟨j, Nat.lt_of_lt_of_le hj hk⟩)).1).isFail = true),
      sumEvCount (connectStep os) isCloseEv i (l.take k) = createOkCount os i (l.take k)
  | _, 0, i, _, _ => by simp [sumEvCount, createOkCount]
  | [], k + 1, i, hk, _ => absurd hk (by simp)
  | a :: rest, k + 1, i, hk, hfail => by
      have h0 : ((connectStep os i a).1).isFail = true := hfail 0 (Nat.succ_pos _)
      have hrec := sumClose_connect os rest k (i + 1) (Nat.le_of_succ_le_succ hk)
        (fun j hj => by
          have hidx : (i + 1) + j = i + (j + 1) := by omega
          rw [hidx]
          exact hfail (j + 1) (Nat.succ_lt_succ hj))
      rw [List.take_succ_cons]
      simp only [sumEvCount, createOkCount]
      rw [hrec]
      congr 1
      rcases h1 : os.socketResult i a.ai_family a.ai_socktype a.ai_protocol with e | fd0
      · simp [connectStep, h1, isCloseEv]
      · rcases h2 : os.connectResult i fd0 a.ai_addr a.ai_addrlen with _ | e
        · simp [connectStep, h1, h2, StepOut.isFail] at h0
        · simp [connectStep, h1, h2, isCloseEv]

/-- The step outcome of a `Bind` candidate does not depend on the
`setsockopt` oracle. -/
theorem bindStep_fst_sockopt (os : OsApi) (g : Nat → Nat → Int → Int → Bool)
    (w : Bool) (i : Nat) (info : AddrInfo) :
    (bindStep { os with sockoptResult := g } w i info).1 = (bindStep os w i info).1 := by
  rcases h1 : os.socketResult i info.ai_family info.ai_socktype info.ai_protocol with e | fd0
  · simp [bindStep, h1]
  · rcases h2 : os.bindResult i fd0 info.ai_addr info.ai_addrlen with _ | e <;>
      cases w <;> simp [bindStep, h1, h2]

/-- A `Connect` candidate does not consult the `setsockopt` oracle at
all. -/
theorem connectStep_sockopt (os : OsApi) (g : Nat → Nat → Int → Int → Bool)
    (i : Nat) (info : AddrInfo) :
    connectStep { os with sockoptResult := g } i info = connectStep os i info := rfl

/-- Steps with equal outcomes drive the loop to equal results
(events aside). -/
theorem tryLoop_result_congr (step1 step2 : Nat → AddrInfo → StepOut × List SockEvent)
    (h : ∀ j a, (step1 j a).1 = (step2 j a).1) :
    ∀ (l : List AddrInfo) (i : Nat) (f0 : Option String) (e0 : Option Int),
      (tryLoop step1 l i f0 e0).fd = (tryLoop step2 l i f0 e0).fd ∧
      (tryLoop step1 l i f0 e0).func = (tryLoop step2 l i f0 e0).func ∧
      (tryLoop step1 l i f0 e0).err = (tryLoop step2 l i f0 e0).err
  | [], i, f0, e0 => ⟨rfl, rfl, rfl⟩
  | info :: rest, i, f0, e0 => by
      rcases h1 : step1 i info with ⟨o1, evs1⟩
      rcases h2 : step2 i info with ⟨o2, evs2⟩
      have ho : o1 = o2 := by
        have hh := h i info
        rw [h1, h2] at hh
        exact hh
      subst ho
      cases o1 with
      | fail f e =>
          have ih := tryLoop_result_congr step1 step2 h rest (i + 1) (some f) (some e)
          rw [tryLoop_cons_fail step1 info rest i f0 e0 f e evs1 h1,
              tryLoop_cons_fail step2 info rest i f0 e0 f e evs2 h2]
          exact ih
      | success fd =>
          rw [tryLoop_cons_succ step1 info rest i f0 e0 fd evs1 h1,
              tryLoop_cons_succ step2 info rest i f0 e0 fd evs2 h2]
          exact ⟨rfl, rfl, rfl⟩

/-- `Bind` after a failing `getaddrinfo`: log and raise the resolution
error. -/
theorem bindFromGai_err (os : OsApi) (w : Bool) (gai : Int × List AddrInfo)
    (h : gai.1 ≠ 0) :
    TcpSocket.bindFromGai os w gai =
      { result := .resolutionError gai.1, events := [.logCritical] } := by
  simp [TcpSocket.bindFromGai, h]

/-- `Bind` after a successful `getaddrinfo` whose loop installed `fd`. -/
theorem bindFromGai_some (os : OsApi) (w : Bool) (gai : Int × List AddrInfo)
    (h0 : gai.1 = 0) (fd : Nat)
    (h : (tryLoop (bindStep os w) gai.2 0 none none).fd = some fd) :
    TcpSocket.bindFromGai os w gai =
      { result := .ok fd
        events := (tryLoop (bindStep os w) gai.2 0 none none).events ++
          [.freeaddrinfoCall] } := by
  simp [TcpSocket.bindFromGai, h0, h]

/-- `Bind` after a successful `getaddrinfo` whose loop exhausted all
candidates: release the list, log, and raise the recorded failure. -/
theorem bindFromGai_none (os : OsApi) (w : Bool) (gai : Int × List AddrInfo)
    (h0 : gai.1 = 0)
    (h : (tryLoop (bindStep os w) gai.2 0 none none).fd = none) :
    TcpSocket.bindFromGai os w gai =
      { result := .socketError (tryLoop (bindStep os w) gai.2 0 none none).func
                    (tryLoop (bindStep os w) gai.2 0 none none).err
        events := (tryLoop (bindStep os w) gai.2 0 none none).events ++
          [.freeaddrinfoCall, .logCritical] } := by
  simp [TcpSocket.bindFromGai, h0, h]

/-- `Connect` after a failing `getaddrinfo`: log and raise the resolution
error. -/
theorem connectFromGai_err (os : OsApi) (gai : Int × List AddrInfo)
    (h : gai.1 ≠ 0) :
    TcpSocket.connectFromGai os gai =
      { result := .resolutionError gai.1, events := [.logCritical] } := by
  simp [TcpSocket.connectFromGai, h]

/-- `Connect` after a successful `getaddrinfo` whose loop installed
`fd`. -/
theorem connectFromGai_some (os : OsApi) (gai : Int × List AddrInfo)
    (h0 : gai.1 = 0) (fd : Nat)
    (h : (tryLoop (connectStep os) gai.2 0 none none).fd = some fd) :
    TcpSocket.connectFromGai os gai =
      { result := .ok fd
        events := (tryLoop (connectStep os) gai.2 0 none none).events ++
          [.freeaddrinfoCall] } := by
  simp [TcpSocket.connectFromGai, h0, h]

/-- `Connect` after a successful `getaddrinfo` whose loop exhausted all
candidates: release the list, log, and raise the recorded failure. -/
theorem connectFromGai_none (os : OsApi) (gai : Int × List AddrInfo)
    (h0 : gai.1 = 0)
    (h : (tryLoop (connectStep os) gai.2 0 none none).fd = none) :
    TcpSocket.connectFromGai os gai =
      { result := .socketError (tryLoop (connectStep os) gai.2 0 none none).func
                    (tryLoop (connectStep os) gai.2 0 none none).err
        events := (tryLoop (connectStep os) gai.2 0 none none).events ++
          [.freeaddrinfoCall, .logCritical] } := by
  simp [TcpSocket.connectFromGai, h0, h]

/-- C1: for every input on which resolution yields zero candidates (a
non-zero `getaddrinfo` status, or a contract-violating empty success
excluded by the POSIX guarantee `gaiWf`), both `Bind(node, service,
family)` and `Connect(node, service)` fail with the resolution error
carrying the resolver status, and no `socket()` call occurs, so no socket
is ever created during the call. -/
theorem claim_C1 (os : OsApi) (w : Bool) (node service : String) (family : Int) :
    (gaiWf os (TcpSocket.bindQuery node service family) →
      yieldsZeroCandidates os (TcpSocket.bindQuery node service family) →
      (TcpSocket.Bind os w node service family).result =
        .resolutionError (os.gaiResult (TcpSocket.bindQuery node service family)).1 ∧
      ((TcpSocket.Bind os w node service family).events).countP isSocketCallEv = 0) ∧
    (gaiWf os (TcpSocket.connectQuery node service) →
      yieldsZeroCandidates os (TcpSocket.connectQuery node service) →
      (TcpSocket.Connect os node service).result =
        .resolutionError (os.gaiResult (TcpSocket.connectQuery node service)).1 ∧
      ((TcpSocket.Connect os node service).events).countP isSocketCallEv = 0) := by
  constructor
  · intro hwf hzero
    have hrc : (os.gaiResult (TcpSocket.bindQuery node service family)).1 ≠ 0 := by
      rcases hzero with h | h
      · exact h
      · intro h0
        exact hwf h0 h
    have hbind : TcpSocket.Bind os w node service family =
        { result := .resolutionError
            (os.gaiResult (TcpSocket.bindQuery node service family)).1
          events := [.logCritical] } :=
      bindFromGai_err os w _ hrc
    rw [hbind]
    exact ⟨rfl, rfl⟩
  · intro hwf hzero
    have hrc : (os.gaiResult (TcpSocket.connectQuery node service)).1 ≠ 0 := by
      rcases hzero with h | h
      · exact h
      · intro h0
        exact hwf h0 h
    have hconn : TcpSocket.Connect os node service =
        { result := .resolutionError
            (os.gaiResult (TcpSocket.connectQuery node service)).1
          events := [.logCritical] } :=
      connectFromGai_err os _ hrc
    rw [hconn]
    exact ⟨rfl, rfl⟩

/-- C1 witness: on a concrete oracle whose resolver fails with status -2,
bind and connect both surface the resolution error and create no
socket. -/
theorem claim_C1_witness :
    ((TcpSocket.Bind osResFail false "host" "80" 0).result =
        .resolutionError (osResFail.gaiResult (TcpSocket.bindQuery "host" "80" 0)).1 ∧
      ((TcpSocket.Bind osResFail false "host" "80" 0).events).countP isSocketCallEv = 0) ∧
    ((TcpSocket.Connect osResFail "host" "80").result =
        .resolutionError (osResFail.gaiResult (TcpSocket.connectQuery "host" "80")).1 ∧
      ((TcpSocket.Connect osResFail "host" "80").events).countP isSocketCallEv = 0) :=
  ⟨(claim_C1 osResFail false "host" "80" 0).1 (by decide) (by decide),
   (claim_C1 osResFail false "host" "80" 0).2 (by decide) (by decide)⟩

/-- C7: `Bind` with an empty host resolves in passive/wildcard mode — a
null (`none`) node with `AI_PASSIVE` set — while a non-empty host is
passed through verbatim; `Bind` consults the resolver at exactly this
query. -/
theorem claim_C7 (service : String) (family : Int) :
    (TcpSocket.bindQuery "" service family).node = none ∧
    (TcpSocket.bindQuery "" service family).ai_flags = AI_PASSIVE ∧
    (∀ node, (TcpSocket.bindQuery node service family).node =
      (if node = "" then none else some node)) ∧
    (∀ (os : OsApi) (w : Bool) (node : String),
      TcpSocket.Bind os w node service family =
        TcpSocket.bindFromGai os w
          (os.gaiResult (TcpSocket.bindQuery node service family))) := by
  refine ⟨by simp [TcpSocket.bindQuery], rfl, fun node => rfl, fun os w node => rfl⟩

/-- C2: when resolution succeeds with a non-empty candidate list and every
candidate fails, `Bind` and `Connect` raise the terminal socket error
whose operation name and platform error code are exactly those recorded at
the last failing step of the last candidate — each failing step overwrote
the previously recorded pair, and no earlier candidate's failure
surfaces. -/
theorem claim_C2 (os : OsApi) (w : Bool) (node service : String) (family : Int) :
    (∀ l (hne : l ≠ []),
      os.gaiResult (TcpSocket.bindQuery node service family) = (0, l) →
      (∀ j (hj : j < l.length), ((bindStep os w j (l.get ⟨j, hj⟩)).1).isFail = true) →
      (TcpSocket.Bind os w node service family).result =
        .socketError
          (some ((((bindStep os w (l.length - 1) (l.getLast hne)).1).failData).1))
          (some ((((bindStep os w (l.length - 1) (l.getLast hne)).1).failData).2))) ∧
    (∀ l (hne : l ≠ []),
      os.gaiResult (TcpSocket.connectQuery node service) = (0, l) →
      (∀ j (hj : j < l.length), ((connectStep os j (l.get ⟨j, hj⟩)).1).isFail = true) →
      (TcpSocket.Connect os node service).result =
        .socketError
          (some ((((connectStep os (l.length - 1) (l.getLast hne)).1).failData).1))
          (some ((((connectStep os (l.length - 1) (l.getLast hne)).1).failData).2))) := by
  constructor
  · intro l hne hgai hfail
    have hfail0 : ∀ j (hj : j < l.length),
        ((bindStep os w (0 + j) (l.get ⟨j, hj⟩)).1).isFail = true := by
      intro j hj
      have hidx : 0 + j = j := by omega
      rw [hidx]
      exact hfail j hj
    have hex := tryLoop_exhaust (bindStep os w) l 0 none none hfail0
    have hlast := tryLoop_exhaust_last (bindStep os w) l 0 none none hne hfail0
    rw [Nat.zero_add] at hlast
    have h1 : (os.gaiResult (TcpSocket.bindQuery node service family)).1 = 0 := by
      rw [hgai]
    have h2 : (os.gaiResult (TcpSocket.bindQuery node service family)).2 = l := by
      rw [hgai]
    have hb := bindFromGai_none os w
      (os.gaiResult (TcpSocket.bindQuery node service family)) h1
      (by rw [h2]; exact hex.1)
    show (TcpSocket.bindFromGai os w
      (os.gaiResult (TcpSocket.bindQuery node service family))).result = _
    rw [hb]
    show CallResult.socketError _ _ = _
    rw [h2, hlast.1, hlast.2]
  · intro l hne hgai hfail
    have hfail0 : ∀ j (hj : j < l.length),
        ((connectStep os (0 + j) (l.get ⟨j, hj⟩)).1).isFail = true := by
      intro j hj
      have hidx : 0 + j = j := by omega
      rw [hidx]
      exact hfail j hj
    have hex := tryLoop_exhaust (connectStep os) l 0 none none hfail0
    have hlast := tryLoop_exhaust_last (connectStep os) l 0 none none hne hfail0
    rw [Nat.zero_add] at hlast
    have h1 : (os.gaiResult (TcpSocket.connectQuery node service)).1 = 0 := by
      rw [hgai]
    have h2 : (os.gaiResult (TcpSocket.connectQuery node service)).2 = l := by
      rw [hgai]
    have hc := connectFromGai_none os
      (os.gaiResult (TcpSocket.connectQuery node service)) h1
      (by rw [h2]; exact hex.1)
    show (TcpSocket.connectFromGai os
      (os.gaiResult (TcpSocket.connectQuery node service))).result = _
    rw [hc]
    show CallResult.socketError _ _ = _
    rw [h2, hlast.1, hlast.2]

/-- C2 witness: on an oracle where both candidates fail (candidate 1 at
`bind`/`connect` with errno 98/111), the raised error carries exactly the
last candidate's failing step data. -/
theorem claim_C2_witness :
    (TcpSocket.Bind osStepFail false "host" "80" 0).result =
      .socketError (some "bind") (some 98) ∧
    (TcpSocket.Connect osStepFail "host" "80").result =
      .socketError (some "connect") (some 111) := by
  have hb := (claim_C2 osStepFail false "host" "80" 0).1 [infoV4, infoV6]
    (by decide) rfl (by decide)
  have hc := (claim_C2 osStepFail false "host" "80" 0).2 [infoV4, infoV6]
    (by decide) rfl (by decide)
  exact ⟨hb.trans (by decide), hc.trans (by decide)⟩

/-- C3: as soon as a candidate's bind (respectively connect) succeeds, its
descriptor is installed as the call's result and iteration stops: the
trace holds exactly `k + 1` `socket()` calls when the first success is at
position `k`, so no later candidate is attempted. -/
theorem claim_C3 (os : OsApi) (w : Bool) (node service : String) (family : Int) :
    (∀ l (k : Nat) (hk : k < l.length) (fd : Nat),
      os.gaiResult (TcpSocket.bindQuery node service family) = (0, l) →
      (∀ j (hj : j < k),
        ((bindStep os w j (l.get ⟨j, Nat.lt_trans hj hk⟩)).1).isFail = true) →
      (bindStep os w k (l.get ⟨k, hk⟩)).1 = .success fd →
      (TcpSocket.Bind os w node service family).result = .ok fd ∧
      ((TcpSocket.Bind os w node service family).events).countP isSocketCallEv = k + 1) ∧
    (∀ l (k : Nat) (hk : k < l.length) (fd : Nat),
      os.gaiResult (TcpSocket.connectQuery node service) = (0, l) →
      (∀ j (hj : j < k),
        ((connectStep os j (l.get ⟨j, Nat.lt_trans hj hk⟩)).1).isFail = true) →
      (connectStep os k (l.get ⟨k, hk⟩)).1 = .success fd →
      (TcpSocket.Connect os node service).result = .ok fd ∧
      ((TcpSocket.Connect os node service).events).countP isSocketCallEv = k + 1) := by
  constructor
  · intro l k hk fd hgai hfail hsucc
    have hfail0 : ∀ j (hj : j < k),
        ((bindStep os w (0 + j) (l.get ⟨j, Nat.lt_trans hj hk⟩)).1).isFail = true := by
      intro j hj
      have hidx : 0 + j = j := by omega
      rw [hidx]
      exact hfail j hj
    have hsucc0 : (bindStep os w (0 + k) (l.get ⟨k, hk⟩)).1 = .success fd := by
      have hidx : 0 + k = k := by omega
      rw [hidx]
      exact hsucc
    have hs := tryLoop_success (bindStep os w) l 0 none none k hk hfail0 fd hsucc0
    have h1 : (os.gaiResult (TcpSocket.bindQuery node service family)).1 = 0 := by
      rw [hgai]
    have h2 : (os.gaiResult (TcpSocket.bindQuery node service family)).2 = l := by
      rw [hgai]
    have hb := bindFromGai_some os w
      (os.gaiResult (TcpSocket.bindQuery node service family)) h1 fd
      (by rw [h2]; exact hs.1)
    constructor
    · show (TcpSocket.bindFromGai os w
        (os.gaiResult (TcpSocket.bindQuery node service family))).result = _
      rw [hb]
    · show ((TcpSocket.bindFromGai os w
        (os.gaiResult (TcpSocket.bindQuery node service family))).events).countP
          isSocketCallEv = k + 1
      rw [hb]
      show (((tryLoop (bindStep os w)
        (os.gaiResult (TcpSocket.bindQuery node service family)).2 0 none none).events)
          ++ [SockEvent.freeaddrinfoCall]).countP isSocketCallEv = k + 1
      rw [h2, List.countP_append, (hs.2 isSocketCallEv),
        sumEvCount_one (bindStep os w) isSocketCallEv
          (fun j a => bindStep_count_socket os w j a) (l.take k) 0,
        List.length_take, bindStep_count_socket,
        Nat.min_eq_left (Nat.le_of_lt hk)]
      simp [isSocketCallEv]
  · intro l k hk fd hgai hfail hsucc
    have hfail0 : ∀ j (hj : j < k),
        ((connectStep os (0 + j) (l.get ⟨j, Nat.lt_trans hj hk⟩)).1).isFail = true := by
      intro j hj
      have hidx : 0 + j = j := by omega
      rw [hidx]
      exact hfail j hj
    have hsucc0 : (connectStep os (0 + k) (l.get ⟨k, hk⟩)).1 = .success fd := by
      have hidx : 0 + k = k := by omega
      rw [hidx]
      exact hsucc
    have hs := tryLoop_success (connectStep os) l 0 none none k hk hfail0 fd hsucc0
    have h1 : (os.gaiResult (TcpSocket.connectQuery node service)).1 = 0 := by
      rw [hgai]
    have h2 : (os.gaiResult (TcpSocket.connectQuery node service)).2 = l := by
      rw [hgai]
    have hc := connectFromGai_some os
      (os.gaiResult (TcpSocket.connectQuery node service)) h1 fd
      (by rw [h2]; exact hs.1)
    constructor
    · show (TcpSocket.connectFromGai os
        (os.gaiResult (TcpSocket.connectQuery node service))).result = _
      rw [hc]
    · show ((TcpSocket.connectFromGai os
        (os.gaiResult (TcpSocket.connectQuery node service))).events).countP
          isSocketCallEv = k + 1
      rw [hc]
      show (((tryLoop (connectStep os)
        (os.gaiResult (TcpSocket.connectQuery node service)).2 0 none none).events)
          ++ [SockEvent.freeaddrinfoCall]).countP isSocketCallEv = k + 1
      rw [h2, List.countP_append, (hs.2 isSocketCallEv),
        sumEvCount_one (connectStep os) isSocketCallEv
          (fun j a => connectStep_count_socket os j a) (l.take k) 0,
        List.length_take, connectStep_count_socket,
        Nat.min_eq_left (Nat.le_of_lt hk)]
      simp [isSocketCallEv]

/-- C3 witness: on an oracle whose first candidate fails at `bind`
(respectively `connect`) and whose second succeeds with descriptor 9, the
call returns descriptor 9 after exactly two `socket()` calls. -/
theorem claim_C3_witness :
    ((TcpSocket.Bind osRetryOk false "host" "80" 0).result = .ok 9 ∧
      ((TcpSocket.Bind osRetryOk false "host" "80" 0).events).countP
        isSocketCallEv = 1 + 1) ∧
    ((TcpSocket.Connect osRetryOk "host" "80").result = .ok 9 ∧
      ((TcpSocket.Connect osRetryOk "host" "80").events).countP
        isSocketCallEv = 1 + 1) :=
  ⟨(claim_C3 osRetryOk false "host" "80" 0).1 [infoV4, infoV6] 1 (by decide) 9
      rfl (by decide) (by decide),
   (claim_C3 osRetryOk false "host" "80" 0).2 [infoV4, infoV6] 1 (by decide) 9
      rfl (by decide) (by decide)⟩

/-- C4: neither `Bind` nor `Connect` leaks a descriptor: replaying the
whole trace leaves open exactly the successful result (nothing on any
failure path), and each candidate whose step fails has closed any
descriptor it created before the loop advances. -/
theorem claim_C4 (os : OsApi) (w : Bool) (node service : String) (family : Int) :
    (openAfter [] ((TcpSocket.Bind os w node service family).events) =
      survivors ((TcpSocket.Bind os w node service family).result)) ∧
    (∀ i info, (((bindStep os w i info).1).isFail = true) →
      openAfter [] (bindStep os w i info).2 = []) ∧
    (openAfter [] ((TcpSocket.Connect os node service).events) =
      survivors ((TcpSocket.Connect os node service).result)) ∧
    (∀ i info, (((connectStep os i info).1).isFail = true) →
      openAfter [] (connectStep os i info).2 = []) := by
  refine ⟨?_, fun i info => (bindStep_openAfter os w i info).1, ?_,
    fun i info => (connectStep_openAfter os i info).1⟩
  · by_cases h1 : (os.gaiResult (TcpSocket.bindQuery node service family)).1 = 0
    · have hop := tryLoop_openAfter (bindStep os w)
        (fun j a => bindStep_openAfter os w j a)
        ((os.gaiResult (TcpSocket.bindQuery node service family)).2) 0 none none
      rcases hfd : (tryLoop (bindStep os w)
          ((os.gaiResult (TcpSocket.bindQuery node service family)).2)
          0 none none).fd with _ | fd
      · have hb := bindFromGai_none os w
          (os.gaiResult (TcpSocket.bindQuery node service family)) h1 hfd
        show openAfter [] ((TcpSocket.bindFromGai os w
          (os.gaiResult (TcpSocket.bindQuery node service family))).events) =
          survivors ((TcpSocket.bindFromGai os w
            (os.gaiResult (TcpSocket.bindQuery node service family))).result)
        rw [hb]
        show openAfter [] (_ ++ [.freeaddrinfoCall, .logCritical]) = _
        rw [openAfter_append]
        rw [hfd] at hop
        rw [hop]
        rfl
      · have hb := bindFromGai_some os w
          (os.gaiResult (TcpSocket.bindQuery node service family)) h1 fd hfd
        show openAfter [] ((TcpSocket.bindFromGai os w
          (os.gaiResult (TcpSocket.bindQuery node service family))).events) =
          survivors ((TcpSocket.bindFromGai os w
            (os.gaiResult (TcpSocket.bindQuery node service family))).result)
        rw [hb]
        show openAfter [] (_ ++ [.freeaddrinfoCall]) = _
        rw [openAfter_append]
        rw [hfd] at hop
        rw [hop]
        rfl
    · have hb := bindFromGai_err os w
        (os.gaiResult (TcpSocket.bindQuery node service family)) h1
      show openAfter [] ((TcpSocket.bindFromGai os w
        (os.gaiResult (TcpSocket.bindQuery node service family))).events) =
        survivors ((TcpSocket.bindFromGai os w
          (os.gaiResult (TcpSocket.bindQuery node service family))).result)
      rw [hb]
      rfl
  · by_cases h1 : (os.gaiResult (TcpSocket.connectQuery node service)).1 = 0
    · have hop := tryLoop_openAfter (connectStep os)
        (fun j a => connectStep_openAfter os j a)
        ((os.gaiResult (TcpSocket.connectQuery node service)).2) 0 none none
      rcases hfd : (tryLoop (connectStep os)
          ((os.gaiResult (TcpSocket.connectQuery node service)).2)
          0 none none).fd with _ | fd
      · have hc := connectFromGai_none os
          (os.gaiResult (TcpSocket.connectQuery node service)) h1 hfd
        show openAfter [] ((TcpSocket.connectFromGai os
          (os.gaiResult (TcpSocket.connectQuery node service))).events) =
          survivors ((TcpSocket.connectFromGai os
            (os.gaiResult (TcpSocket.connectQuery node service))).result)
        rw [hc]
        show openAfter [] (_ ++ [.freeaddrinfoCall, .logCritical]) = _
        rw [openAfter_append]
        rw [hfd] at hop
        rw [hop]
        rfl
      · have hc := connectFromGai_some os
          (os.gaiResult (TcpSocket.connectQuery node service)) h1 fd hfd
        show openAfter [] ((TcpSocket.connectFromGai os
          (os.gaiResult (TcpSocket.connectQuery node service))).events) =
          survivors ((TcpSocket.connectFromGai os
            (os.gaiResult (TcpSocket.connectQuery node service))).result)
        rw [hc]
        show openAfter [] (_ ++ [.freeaddrinfoCall]) = _
        rw [openAfter_append]
        rw [hfd] at hop
        rw [hop]
        rfl
    · have hc := connectFromGai_err os
        (os.gaiResult (TcpSocket.connectQuery node service)) h1
      show openAfter [] ((TcpSocket.connectFromGai os
        (os.gaiResult (TcpSocket.connectQuery node service))).events) =
        survivors ((TcpSocket.connectFromGai os
          (os.gaiResult (TcpSocket.connectQuery node service))).result)
      rw [hc]
      rfl

/-- C4 witness: a failed-then-successful bind leaves open only the final
descriptor, and a failing candidate that created descriptor 5 has closed
it by the end of its step. -/
theorem claim_C4_witness :
    openAfter [] ((TcpSocket.Bind osRetryOk true "host" "80" 0).events) =
      survivors ((TcpSocket.Bind osRetryOk true "host" "80" 0).result) ∧
    openAfter [] (bindStep osAllFail false 1 infoV6).2 = [] :=
  ⟨(claim_C4 osRetryOk true "host" "80" 0).1,
   (claim_C4 osAllFail false "host" "80" 0).2.1 1 infoV6 (by decide)⟩

/-- C6: the resolver's native result list is released exactly once when
resolution succeeds — after iteration, on both the early-success path and
the exhaustion path (where the terminal error is then raised) — and zero
times when resolution itself fails. -/
theorem claim_C6 (os : OsApi) (w : Bool) (node service : String) (family : Int) :
    ((TcpSocket.Bind os w node service family).events).countP isFreeEv =
      (if (os.gaiResult (TcpSocket.bindQuery node service family)).1 = 0
        then 1 else 0) ∧
    ((TcpSocket.Connect os node service).events).countP isFreeEv =
      (if (os.gaiResult (TcpSocket.connectQuery node service)).1 = 0
        then 1 else 0) := by
  constructor
  · by_cases h1 : (os.gaiResult (TcpSocket.bindQuery node service family)).1 = 0
    · have hz := tryLoop_countP_zero (bindStep os w) isFreeEv
        (fun j a => bindStep_count_free os w j a)
        ((os.gaiResult (TcpSocket.bindQuery node service family)).2) 0 none none
      rcases hfd : (tryLoop (bindStep os w)
          ((os.gaiResult (TcpSocket.bindQuery node service family)).2)
          0 none none).fd with _ | fd
      · have hb := bindFromGai_none os w
          (os.gaiResult (TcpSocket.bindQuery node service family)) h1 hfd
        show ((TcpSocket.bindFromGai os w
          (os.gaiResult (TcpSocket.bindQuery node service family))).events).countP
            isFreeEv = _
        rw [hb]
        show (_ ++ [SockEvent.freeaddrinfoCall, SockEvent.logCritical]).countP
          isFreeEv = _
        rw [List.countP_append, hz, if_pos h1]
        decide
      · have hb := bindFromGai_some os w
          (os.gaiResult (TcpSocket.bindQuery node service family)) h1 fd hfd
        show ((TcpSocket.bindFromGai os w
          (os.gaiResult (TcpSocket.bindQuery node service family))).events).countP
            isFreeEv = _
        rw [hb]
        show (_ ++ [SockEvent.freeaddrinfoCall]).countP isFreeEv = _
        rw [List.countP_append, hz, if_pos h1]
        decide
    · have hb := bindFromGai_err os w
        (os.gaiResult (TcpSocket.bindQuery node service family)) h1
      show ((TcpSocket.bindFromGai os w
        (os.gaiResult (TcpSocket.bindQuery node service family))).events).countP
          isFreeEv = _
      rw [hb, if_neg h1]
      rfl
  · by_cases h1 : (os.gaiResult (TcpSocket.connectQuery node service)).1 = 0
    · have hz := tryLoop_countP_zero (connectStep os) isFreeEv
        (fun j a => connectStep_count_free os j a)
        ((os.gaiResult (TcpSocket.connectQuery node service)).2) 0 none none
      rcases hfd : (tryLoop (connectStep os)
          ((os.gaiResult (TcpSocket.connectQuery node service)).2)
          0 none none).fd with _ | fd
      · have hc := connectFromGai_none os
          (os.gaiResult (TcpSocket.connectQuery node service)) h1 hfd
        show ((TcpSocket.connectFromGai os
          (os.gaiResult (TcpSocket.connectQuery node service))).events).countP
            isFreeEv = _
        rw [hc]
        show (_ ++ [SockEvent.freeaddrinfoCall, SockEvent.logCritical]).countP
          isFreeEv = _
        rw [List.countP_append, hz, if_pos h1]
        decide
      · have hc := connectFromGai_some os
          (os.gaiResult (TcpSocket.connectQuery node service)) h1 fd hfd
        show ((TcpSocket.connectFromGai os
          (os.gaiResult (TcpSocket.connectQuery node service))).events).countP
            isFreeEv = _
        rw [hc]
        show (_ ++ [SockEvent.freeaddrinfoCall]).countP isFreeEv = _
        rw [List.countP_append, hz, if_pos h1]
        decide
    · have hc := connectFromGai_err os
        (os.gaiResult (TcpSocket.connectQuery node service)) h1
      show ((TcpSocket.connectFromGai os
        (os.gaiResult (TcpSocket.connectQuery node service))).events).countP
          isFreeEv = _
      rw [hc, if_neg h1]
      rfl

/-- C9: under the precondition that resolution yields at least one
candidate, the terminal socket-error branch of `Bind`/`Connect` only ever
reads `func`/`error` after some failing step wrote them (both are `some`);
without that precondition — a successful resolution returning an empty
list — the terminal branch reads both locals uninitialized (`none`). -/
theorem claim_C9 (os : OsApi) (w : Bool) (node service : String) (family : Int) :
    (∀ l, os.gaiResult (TcpSocket.bindQuery node service family) = (0, l) → l ≠ [] →
      ∀ f e, (TcpSocket.Bind os w node service family).result = .socketError f e →
        f.isSome = true ∧ e.isSome = true) ∧
    (os.gaiResult (TcpSocket.bindQuery node service family) = (0, []) →
      (TcpSocket.Bind os w node service family).result = .socketError none none) ∧
    (∀ l, os.gaiResult (TcpSocket.connectQuery node service) = (0, l) → l ≠ [] →
      ∀ f e, (TcpSocket.Connect os node service).result = .socketError f e →
        f.isSome = true ∧ e.isSome = true) ∧
    (os.gaiResult (TcpSocket.connectQuery node service) = (0, []) →
      (TcpSocket.Connect os node service).result = .socketError none none) := by
  refine ⟨?_, ?_, ?_, ?_⟩
  · intro l hgai hne f e hres
    have h1 : (os.gaiResult (TcpSocket.bindQuery node service family)).1 = 0 := by
      rw [hgai]
    have h2 : (os.gaiResult (TcpSocket.bindQuery node service family)).2 = l := by
      rw [hgai]
    rcases l with _ | ⟨info, rest⟩
    · exact absurd rfl hne
    · rcases hfd : (tryLoop (bindStep os w) (info :: rest) 0 none none).fd with _ | fd
      · have hb := bindFromGai_none os w
          (os.gaiResult (TcpSocket.bindQuery node service family)) h1
          (by rw [h2]; exact hfd)
        have hres' : CallResult.socketError
            (tryLoop (bindStep os w) (info :: rest) 0 none none).func
            (tryLoop (bindStep os w) (info :: rest) 0 none none).err =
            CallResult.socketError f e := by
          rw [← h2]
          have hres2 := hres
          rw [show TcpSocket.Bind os w node service family = TcpSocket.bindFromGai os w
            (os.gaiResult (TcpSocket.bindQuery node service family)) from rfl, hb] at hres2
          exact hres2
        have hw := tryLoop_none_written (bindStep os w) info rest 0 none none hfd
        injection hres' with hf he
        rw [← hf, ← he]
        exact hw
      · have hb := bindFromGai_some os w
          (os.gaiResult (TcpSocket.bindQuery node service family)) h1 fd
          (by rw [h2]; exact hfd)
        rw [show TcpSocket.Bind os w node service family = TcpSocket.bindFromGai os w
          (os.gaiResult (TcpSocket.bindQuery node service family)) from rfl, hb] at hres
        exact absurd hres (by simp)
  · intro hgai
    have h1 : (os.gaiResult (TcpSocket.bindQuery node service family)).1 = 0 := by
      rw [hgai]
    have h2 : (os.gaiResult (TcpSocket.bindQuery node service family)).2 = [] := by
      rw [hgai]
    have hb := bindFromGai_none os w
      (os.gaiResult (TcpSocket.bindQuery node service family)) h1
      (by rw [h2]; rfl)
    rw [show TcpSocket.Bind os w node service family = TcpSocket.bindFromGai os w
      (os.gaiResult (TcpSocket.bindQuery node service family)) from rfl, hb]
    show CallResult.socketError _ _ = _
    rw [h2]
    rfl
  · intro l hgai hne f e hres
    have h1 : (os.gaiResult (TcpSocket.connectQuery node service)).1 = 0 := by
      rw [hgai]
    have h2 : (os.gaiResult (TcpSocket.connectQuery node service)).2 = l := by
      rw [hgai]
    rcases l with _ | ⟨info, rest⟩
    · exact absurd rfl hne
    · rcases hfd : (tryLoop (connectStep os) (info :: rest) 0 none none).fd with _ | fd
      · have hc := connectFromGai_none os
          (os.gaiResult (TcpSocket.connectQuery node service)) h1
          (by rw [h2]; exact hfd)
        have hres' : CallResult.socketError
            (tryLoop (connectStep os) (info :: rest) 0 none none).func
            (tryLoop (connectStep os) (info :: rest) 0 none none).err =
            CallResult.socketError f e := by
          rw [← h2]
          have hres2 := hres
          rw [show TcpSocket.Connect os node service = TcpSocket.connectFromGai os
            (os.gaiResult (TcpSocket.connectQuery node service)) from rfl, hc] at hres2
          exact hres2
        have hw := tryLoop_none_written (connectStep os) info rest 0 none none hfd
        injection hres' with hf he
        rw [← hf, ← he]
        exact hw
      · have hc := connectFromGai_some os
          (os.gaiResult (TcpSocket.connectQuery node service)) h1 fd
          (by rw [h2]; exact hfd)
        rw [show TcpSocket.Connect os node service = TcpSocket.connectFromGai os
          (os.gaiResult (TcpSocket.connectQuery node service)) from rfl, hc] at hres
        exact absurd hres (by simp)
  · intro hgai
    have h1 : (os.gaiResult (TcpSocket.connectQuery node service)).1 = 0 := by
      rw [hgai]
    have h2 : (os.gaiResult (TcpSocket.connectQuery node service)).2 = [] := by
      rw [hgai]
    have hc := connectFromGai_none os
      (os.gaiResult (TcpSocket.connectQuery node service)) h1
      (by rw [h2]; rfl)
    rw [show TcpSocket.Connect os node service = TcpSocket.connectFromGai os
      (os.gaiResult (TcpSocket.connectQuery node service)) from rfl, hc]
    show CallResult.socketError _ _ = _
    rw [h2]
    rfl

/-- C9 witness: with a non-empty candidate list the surfaced pair is
written (`some`/`some`); with a contract-violating empty success the
terminal error carries both locals unwritten (`none`/`none`). -/
theorem claim_C9_witness :
    ((Option.some "bind").isSome = true ∧ (Option.some (98 : Int)).isSome = true) ∧
    (TcpSocket.Bind osEmptyOk false "host" "80" 0).result = .socketError none none ∧
    (TcpSocket.Connect osEmptyOk "host" "80").result = .socketError none none :=
  ⟨(claim_C9 osStepFail false "host" "80" 0).1 [infoV4, infoV6] rfl (by decide)
      (some "bind") (some 98) (by decide),
   (claim_C9 osEmptyOk false "host" "80" 0).2.1 rfl,
   (claim_C9 osEmptyOk false "host" "80" 0).2.2.2 rfl⟩

/-- A successful `Bind` candidate closes nothing. -/
theorem bindStep_succ_no_close (os : OsApi) (w : Bool) (i : Nat) (info : AddrInfo)
    (fd : Nat) (h : (bindStep os w i info).1 = .success fd) :
    ((bindStep os w i info).2).countP isCloseEv = 0 := by
  rcases h1 : os.socketResult i info.ai_family info.ai_socktype info.ai_protocol with e | fd0
  · simp [bindStep, h1] at h
  · rcases h2 : os.bindResult i fd0 info.ai_addr info.ai_addrlen with _ | e
    · cases w <;> simp [bindStep, h1, h2, isCloseEv]
    · simp [bindStep, h1, h2] at h

/-- A successful `Connect` candidate closes nothing. -/
theorem connectStep_succ_no_close (os : OsApi) (i : Nat) (info : AddrInfo)
    (fd : Nat) (h : (connectStep os i info).1 = .success fd) :
    ((connectStep os i info).2).countP isCloseEv = 0 := by
  rcases h1 : os.socketResult i info.ai_family info.ai_socktype info.ai_protocol with e | fd0
  · simp [connectStep, h1] at h
  · rcases h2 : os.connectResult i fd0 info.ai_addr info.ai_addrlen with _ | e
    · simp [connectStep, h1, h2, isCloseEv]
    · simp [connectStep, h1, h2] at h

/-- C5 counterexample: with N = 2 candidates where candidate 1 fails at
`socket()` creation (so no descriptor ever exists for it) and candidate 2
succeeds, the call succeeds but zero intermediate descriptors are closed —
not N - 1 = 1 as the claim requires. -/
theorem claim_C5_counterexample :
    ((osLateOk.gaiResult (TcpSocket.bindQuery "host" "80" 0)).1 = 0 ∧
      ((osLateOk.gaiResult (TcpSocket.bindQuery "host" "80" 0)).2).length = 2) ∧
    ((bindStep osLateOk false 0 infoV4).1).isFail = true ∧
    (bindStep osLateOk false 1 infoV6).1 = .success 7 ∧
    (TcpSocket.Bind osLateOk false "host" "80" 0).result = .ok 7 ∧
    ((TcpSocket.Bind osLateOk false "host" "80" 0).events).countP isCloseEv = 0 ∧
    ¬ (((TcpSocket.Bind osLateOk false "host" "80" 0).events).countP isCloseEv =
        ((osLateOk.gaiResult (TcpSocket.bindQuery "host" "80" 0)).2).length - 1) := by
  decide

/-- C5 amended: when resolution yields N > 0 candidates, candidates
1..N-1 all fail, and candidate N succeeds, the call succeeds and the
number of intermediate descriptors closed equals the number of failing
candidates whose `socket()` creation succeeded (one each; a candidate that
fails at creation has no descriptor to close, so the count is N - 1
exactly when every failure happens after creation). -/
theorem claim_C5_amended (os : OsApi) (w : Bool) (node service : String) (family : Int) :
    (∀ l (k : Nat) (hk : k < l.length) (fd : Nat),
      os.gaiResult (TcpSocket.bindQuery node service family) = (0, l) →
      l.length = k + 1 →
      (∀ j (hj : j < k),
        ((bindStep os w j (l.get ⟨j, Nat.lt_trans hj hk⟩)).1).isFail = true) →
      (bindStep os w k (l.get ⟨k, hk⟩)).1 = .success fd →
      (TcpSocket.Bind os w node service family).result = .ok fd ∧
      ((TcpSocket.Bind os w node service family).events).countP isCloseEv =
        createOkCount os 0 (l.take k)) ∧
    (∀ l (k : Nat) (hk : k < l.length) (fd : Nat),
      os.gaiResult (TcpSocket.connectQuery node service) = (0, l) →
      l.length = k + 1 →
      (∀ j (hj : j < k),
        ((connectStep os j (l.get ⟨j, Nat.lt_trans hj hk⟩)).1).isFail = true) →
      (connectStep os k (l.get ⟨k, hk⟩)).1 = .success fd →
      (TcpSocket.Connect os node service).result = .ok fd ∧
      ((TcpSocket.Connect os node service).events).countP isCloseEv =
        createOkCount os 0 (l.take k)) := by
  constructor
  · intro l k hk fd hgai hlen hfail hsucc
    have hfail0 : ∀ j (hj : j < k),
        ((bindStep os w (0 + j) (l.get ⟨j, Nat.lt_trans hj hk⟩)).1).isFail = true := by
      intro j hj
      have hidx : 0 + j = j := by omega
      rw [hidx]
      exact hfail j hj
    have hsucc0 : (bindStep os w (0 + k) (l.get ⟨k, hk⟩)).1 = .success fd := by
      have hidx : 0 + k = k := by omega
      rw [hidx]
      exact hsucc
    have hs := tryLoop_success (bindStep os w) l 0 none none k hk hfail0 fd hsucc0
    have h1 : (os.gaiResult (TcpSocket.bindQuery node service family)).1 = 0 := by
      rw [hgai]
    have h2 : (os.gaiResult (TcpSocket.bindQuery node service family)).2 = l := by
      rw [hgai]
    have hb := bindFromGai_some os w
      (os.gaiResult (TcpSocket.bindQuery node service family)) h1 fd
      (by rw [h2]; exact hs.1)
    have hsum := sumClose_bind os w l k 0 (Nat.le_of_lt hk) (fun j hj => by
      have hidx : 0 + j = j := by omega
      rw [hidx]
      exact hfail j hj)
    constructor
    · show (TcpSocket.bindFromGai os w
        (os.gaiResult (TcpSocket.bindQuery node service family))).result = _
      rw [hb]
    · show ((TcpSocket.bindFromGai os w
        (os.gaiResult (TcpSocket.bindQuery node service family))).events).countP
          isCloseEv = _
      rw [hb]
      show (((tryLoop (bindStep os w)
        (os.gaiResult (TcpSocket.bindQuery node service family)).2 0 none none).events)
          ++ [SockEvent.freeaddrinfoCall]).countP isCloseEv = _
      rw [h2, List.countP_append, hs.2 isCloseEv,
        bindStep_succ_no_close os w (0 + k) (l.get ⟨k, hk⟩) fd hsucc0, hsum]
      simp [isCloseEv]
  · intro l k hk fd hgai hlen hfail hsucc
    have hfail0 : ∀ j (hj : j < k),
        ((connectStep os (0 + j) (l.get ⟨j, Nat.lt_trans hj hk⟩)).1).isFail = true := by
      intro j hj
      have hidx : 0 + j = j := by omega
      rw [hidx]
      exact hfail j hj
    have hsucc0 : (connectStep os (0 + k) (l.get ⟨k, hk⟩)).1 = .success fd := by
      have hidx : 0 + k = k := by omega
      rw [hidx]
      exact hsucc
    have hs := tryLoop_success (connectStep os) l 0 none none k hk hfail0 fd hsucc0
    have h1 : (os.gaiResult (TcpSocket.connectQuery node service)).1 = 0 := by
      rw [hgai]
    have h2 : (os.gaiResult (TcpSocket.connectQuery node service)).2 = l := by
      rw [hgai]
    have hc := connectFromGai_some os
      (os.gaiResult (TcpSocket.connectQuery node service)) h1 fd
      (by rw [h2]; exact hs.1)
    have hsum := sumClose_connect os l k 0 (Nat.le_of_lt hk) (fun j hj => by
      have hidx : 0 + j = j := by omega
      rw [hidx]
      exact hfail j hj)
    constructor
    · show (TcpSocket.connectFromGai os
        (os.gaiResult (TcpSocket.connectQuery node service))).result = _
      rw [hc]
    · show ((TcpSocket.connectFromGai os
        (os.gaiResult (TcpSocket.connectQuery node service))).events).countP
          isCloseEv = _
      rw [hc]
      show (((tryLoop (connectStep os)
        (os.gaiResult (TcpSocket.connectQuery node service)).2 0 none none).events)
          ++ [SockEvent.freeaddrinfoCall]).countP isCloseEv = _
      rw [h2, List.countP_append, hs.2 isCloseEv,
        connectStep_succ_no_close os (0 + k) (l.get ⟨k, hk⟩) fd hsucc0, hsum]
      simp [isCloseEv]

/-- C5 amended witness: candidate 1 creates descriptor 4 and fails its
bind (respectively connect), candidate 2 succeeds with descriptor 9: the
call succeeds and exactly one close happened — the count of failing
candidates that passed creation. -/
theorem claim_C5_amended_witness :
    ((TcpSocket.Bind osRetryOk false "host" "80" 0).result = .ok 9 ∧
      ((TcpSocket.Bind osRetryOk false "host" "80" 0).events).countP isCloseEv =
        createOkCount osRetryOk 0 ([infoV4, infoV6].take 1)) ∧
    ((TcpSocket.Connect osRetryOk "host" "80").result = .ok 9 ∧
      ((TcpSocket.Connect osRetryOk "host" "80").events).countP isCloseEv =
        createOkCount osRetryOk 0 ([infoV4, infoV6].take 1)) :=
  ⟨(claim_C5_amended osRetryOk false "host" "80" 0).1 [infoV4, infoV6] 1
      (by decide) 9 rfl (by decide) (by decide) (by decide),
   (claim_C5_amended osRetryOk false "host" "80" 0).2 [infoV4, infoV6] 1
      (by decide) 9 rfl (by decide) (by decide) (by decide)⟩

/-- C8: on every `Bind` candidate whose socket creation succeeds, the
IPv6-only option is cleared (value 0) and, on non-Windows platforms, the
address-reuse option is set (value 1) before the bind attempt; the call's
result does not depend on the `setsockopt` oracle at all (option failure
never aborts the bind attempt or changes the outcome); `Connect` applies
no options. -/
theorem claim_C8 (os : OsApi) (w : Bool) (node service : String) (family : Int) :
    (∀ g, (TcpSocket.Bind { os with sockoptResult := g } w node service family).result =
      (TcpSocket.Bind os w node service family).result) ∧
    (∀ g, (TcpSocket.Connect { os with sockoptResult := g } node service).result =
      (TcpSocket.Connect os node service).result) ∧
    (∀ i info fd,
      os.socketResult i info.ai_family info.ai_socktype info.ai_protocol = .ok fd →
      (bindStep os w i info).2 =
        SockEvent.socketCall info.ai_family info.ai_socktype info.ai_protocol (.ok fd) ::
        SockEvent.setsockoptCall fd IPPROTO_IPV6 IPV6_V6ONLY 0
          (os.sockoptResult i fd IPPROTO_IPV6 IPV6_V6ONLY) ::
        ((if w then [] else
          [SockEvent.setsockoptCall fd SOL_SOCKET SO_REUSEADDR 1
            (os.sockoptResult i fd SOL_SOCKET SO_REUSEADDR)]) ++
         SockEvent.bindCall fd info.ai_addr info.ai_addrlen
           (os.bindResult i fd info.ai_addr info.ai_addrlen) ::
         (match os.bindResult i fd info.ai_addr info.ai_addrlen with
          | some _ => [SockEvent.closeCall fd]
          | none => [SockEvent.setFDCall fd]))) ∧
    (∀ i info, ((connectStep os i info).2).countP isSetsockoptEv = 0) := by
  refine ⟨?_, ?_, ?_, fun i info => connectStep_count_sockopt os i info⟩
  · intro g
    have hcongr := tryLoop_result_congr (bindStep { os with sockoptResult := g } w)
      (bindStep os w) (fun j a => bindStep_fst_sockopt os g w j a)
      ((os.gaiResult (TcpSocket.bindQuery node service family)).2) 0 none none
    by_cases h1 : (os.gaiResult (TcpSocket.bindQuery node service family)).1 = 0
    · rcases hfd : (tryLoop (bindStep os w)
          ((os.gaiResult (TcpSocket.bindQuery node service family)).2)
          0 none none).fd with _ | fd
      · have hfd' := hcongr.1.trans hfd
        have hb1 := bindFromGai_none { os with sockoptResult := g } w
          (os.gaiResult (TcpSocket.bindQuery node service family)) h1 hfd'
        have hb2 := bindFromGai_none os w
          (os.gaiResult (TcpSocket.bindQuery node service family)) h1 hfd
        show (TcpSocket.bindFromGai { os with sockoptResult := g } w
          (os.gaiResult (TcpSocket.bindQuery node service family))).result =
          (TcpSocket.bindFromGai os w
            (os.gaiResult (TcpSocket.bindQuery node service family))).result
        rw [hb1, hb2]
        show CallResult.socketError _ _ = CallResult.socketError _ _
        rw [hcongr.2.1, hcongr.2.2]
      · have hfd' := hcongr.1.trans hfd
        have hb1 := bindFromGai_some { os with sockoptResult := g } w
          (os.gaiResult (TcpSocket.bindQuery node service family)) h1 fd hfd'
        have hb2 := bindFromGai_some os w
          (os.gaiResult (TcpSocket.bindQuery node service family)) h1 fd hfd
        show (TcpSocket.bindFromGai { os with sockoptResult := g } w
          (os.gaiResult (TcpSocket.bindQuery node service family))).result =
          (TcpSocket.bindFromGai os w
            (os.gaiResult (TcpSocket.bindQuery node service family))).result
        rw [hb1, hb2]
    · have hb1 := bindFromGai_err { os with sockoptResult := g } w
        (os.gaiResult (TcpSocket.bindQuery node service family)) h1
      have hb2 := bindFromGai_err os w
        (os.gaiResult (TcpSocket.bindQuery node service family)) h1
      show (TcpSocket.bindFromGai { os with sockoptResult := g } w
        (os.gaiResult (TcpSocket.bindQuery node service family))).result =
        (TcpSocket.bindFromGai os w
          (os.gaiResult (TcpSocket.bindQuery node service family))).result
      rw [hb1, hb2]
  · intro g
    have hstep : ∀ i info, connectStep { os with sockoptResult := g } i info =
        connectStep os i info := fun i info => connectStep_sockopt os g i info
    have hcongr := tryLoop_result_congr (connectStep { os with sockoptResult := g })
      (connectStep os) (fun j a => by rw [hstep j a])
      ((os.gaiResult (TcpSocket.connectQuery node service)).2) 0 none none
    by_cases h1 : (os.gaiResult (TcpSocket.connectQuery node service)).1 = 0
    · rcases hfd : (tryLoop (connectStep os)
          ((os.gaiResult (TcpSocket.connectQuery node service)).2)
          0 none none).fd with _ | fd
      · have hfd' := hcongr.1.trans hfd
        have hc1 := connectFromGai_none { os with sockoptResult := g }
          (os.gaiResult (TcpSocket.connectQuery node service)) h1 hfd'
        have hc2 := connectFromGai_none os
          (os.gaiResult (TcpSocket.connectQuery node service)) h1 hfd
        show (TcpSocket.connectFromGai { os with sockoptResult := g }
          (os.gaiResult (TcpSocket.connectQuery node service))).result =
          (TcpSocket.connectFromGai os
            (os.gaiResult (TcpSocket.connectQuery node service))).result
        rw [hc1, hc2]
        show CallResult.socketError _ _ = CallResult.socketError _ _
        rw [hcongr.2.1, hcongr.2.2]
      · have hfd' := hcongr.1.trans hfd
        have hc1 := connectFromGai_some { os with sockoptResult := g }
          (os.gaiResult (TcpSocket.connectQuery node service)) h1 fd hfd'
        have hc2 := connectFromGai_some os
          (os.gaiResult (TcpSocket.connectQuery node service)) h1 fd hfd
        show (TcpSocket.connectFromGai { os with sockoptResult := g }
          (os.gaiResult (TcpSocket.connectQuery node service))).result =
          (TcpSocket.connectFromGai os
            (os.gaiResult (TcpSocket.connectQuery node service))).result
        rw [hc1, hc2]
    · have hc1 := connectFromGai_err { os with sockoptResult := g }
        (os.gaiResult (TcpSocket.connectQuery node service)) h1
      have hc2 := connectFromGai_err os
        (os.gaiResult (TcpSocket.connectQuery node service)) h1
      show (TcpSocket.connectFromGai { os with sockoptResult := g }
        (os.gaiResult (TcpSocket.connectQuery node service))).result =
        (TcpSocket.connectFromGai os
          (os.gaiResult (TcpSocket.connectQuery node service))).result
      rw [hc1, hc2]
  · intro i info fd h
    rcases h2 : os.bindResult i fd info.ai_addr info.ai_addrlen with _ | e <;>
      cases w <;> simp [bindStep, h, h2]

/-- C8 witness: flipping every `setsockopt` outcome to failure leaves the
bind result unchanged, and a created-then-failing candidate's trace shows
both option calls (values 0 and 1) between creation and the bind
attempt. -/
theorem claim_C8_witness :
    ((TcpSocket.Bind { osRetryOk with sockoptResult := fun _ _ _ _ => false }
        false "host" "80" 0).result =
      (TcpSocket.Bind osRetryOk false "host" "80" 0).result) ∧
    (bindStep osStepFail false 0 infoV4).2 =
      [SockEvent.socketCall 2 1 6 (.ok 5),
       SockEvent.setsockoptCall 5 IPPROTO_IPV6 IPV6_V6ONLY 0 false,
       SockEvent.setsockoptCall 5 SOL_SOCKET SO_REUSEADDR 1 false,
       SockEvent.bindCall 5 100 16 (some 98),
       SockEvent.closeCall 5] :=
  ⟨(claim_C8 osRetryOk false "host" "80" 0).1 (fun _ _ _ _ => false),
   ((claim_C8 osStepFail false "host" "80" 0).2.2.1 0 infoV4 5 rfl).trans (by decide)⟩

/-- C10: `Connect` always resolves with the unspecified family and passes
the node text verbatim — an empty node is submitted as the literal empty
name (`some ""`), unlike `Bind`, which converts an empty node to the null
wildcard; `Connect` consults the resolver at exactly this query. -/
theorem claim_C10 (node service : String) :
    (TcpSocket.connectQuery node service).node = some node ∧
    (TcpSocket.connectQuery node service).ai_family = AF_UNSPEC ∧
    (TcpSocket.connectQuery "" service).node = some "" ∧
    (∀ family, (TcpSocket.bindQuery "" service family).node = none) ∧
    (∀ os : OsApi, TcpSocket.Connect os node service =
      TcpSocket.connectFromGai os
        (os.gaiResult (TcpSocket.connectQuery node service))) :=
  ⟨rfl, rfl, rfl, fun _ => by simp [TcpSocket.bindQuery], fun _ => rfl⟩
